import Mathlib

/-!
Shallow embedding of the kibana-prometheus-exporter core
(`internal/collector/types.go` and `cmd/exporter/main.go`).

Numeric sample values are modelled as rationals (`ℚ`); the Go code computes
in `float64`, and every value the claims touch is an exact division by 1000
or an integer cast, which the rational model renders exactly.

Go `map[string]T` fields are modelled as association lists
`List (String × T)`; Go iterates maps in unspecified order, so the list
order is one admissible iteration order, and all counting statements
below are order-independent.  A Go `nil` pointer is `Option.none`.

A Go runtime panic (nil-pointer dereference) is modelled by returning
`Option.none` from the translation: the pass produces no usable output.
-/

namespace KibanaExporter

/-- Struct `ServiceStatus` from types.go: individual service status. -/
structure ServiceStatus where
  level : String
  summary : String
deriving DecidableEq, Repr

/-- Struct `OverallStatus` from types.go: the overall system status. -/
structure OverallStatus where
  level : String
  summary : String
deriving DecidableEq, Repr

/-- Struct `StatusInfo` from types.go.  `core` and `plugins` are
`map[string]*ServiceStatus`: association lists whose values are nilable. -/
structure StatusInfo where
  overall : OverallStatus
  core : List (String × Option ServiceStatus)
  plugins : List (String × Option ServiceStatus)
deriving DecidableEq, Repr

/-- Struct `VersionInfo` from types.go. -/
structure VersionInfo where
  number : String
  buildHash : String
  buildNumber : Int
  buildSnapshot : Bool
deriving DecidableEq, Repr

/-- Struct `HeapMetrics` from types.go.  The three fields are plain (non-pointer)
`int64`, so JSON decoding cannot distinguish absence from zero here. -/
structure HeapMetrics where
  totalBytes : Int
  usedBytes : Int
  sizeLimit : Int
deriving DecidableEq, Repr

/-- Struct `MemoryMetrics` from types.go: both fields are nilable pointers. -/
structure MemoryMetrics where
  heap : Option HeapMetrics
  resident : Option Int
deriving DecidableEq, Repr

/-- Struct `ProcessMetrics` from types.go.  `event_loop_delay` and
`uptime_in_millis` are `*float64`, modelled as optional rationals. -/
structure ProcessMetrics where
  memory : Option MemoryMetrics
  eventLoopDelay : Option ℚ
  uptime : Option ℚ
deriving DecidableEq, Repr

/-- Struct `ControlGroupCPU` from types.go. -/
structure ControlGroupCPU where
  cpuPercent : Option ℚ
deriving DecidableEq, Repr

/-- Struct `CPUMetrics` from types.go. -/
structure CPUMetrics where
  controlGroup : Option ControlGroupCPU
deriving DecidableEq, Repr

/-- Struct `LoadMetrics` from types.go. -/
structure LoadMetrics where
  load1m : Option ℚ
  load5m : Option ℚ
  load15m : Option ℚ
deriving DecidableEq, Repr

/-- Struct `OSMemoryMetrics` from types.go. -/
structure OSMemoryMetrics where
  totalBytes : Option Int
  freeBytes : Option Int
  usedBytes : Option Int
deriving DecidableEq, Repr

/-- Struct `OSMetrics` from types.go. -/
structure OSMetrics where
  cpu : Option CPUMetrics
  load : Option LoadMetrics
  memory : Option OSMemoryMetrics
deriving DecidableEq, Repr

/-- Struct `RequestMetrics` from types.go.  `status_codes` is a `map[string]int`
which can itself be nil, hence the outer `Option`. -/
structure RequestMetrics where
  total : Option Int
  disconnects : Option Int
  statusCodes : Option (List (String × Int))
deriving DecidableEq, Repr

/-- Struct `ResponseTimeMetrics` from types.go. -/
structure ResponseTimeMetrics where
  avg : Option ℚ
  max : Option ℚ
deriving DecidableEq, Repr

/-- Struct `MetricsInfo` from types.go. -/
structure MetricsInfo where
  collectedAt : String
  concurrentConnections : Option Int
  process : ProcessMetrics
  os : Option OSMetrics
  requests : Option RequestMetrics
  responseTimes : Option ResponseTimeMetrics
deriving DecidableEq, Repr

/-- Struct `KibanaStatus` from types.go: the decoded `/api/status` document. -/
structure KibanaStatus where
  name : String
  uuid : String
  version : VersionInfo
  status : StatusInfo
  metrics : MetricsInfo
deriving DecidableEq, Repr

/-- The 24 metric descriptors built in `NewKibanaCollector`, one
constructor per `*prometheus.Desc` field of `KibanaCollector`. -/
inductive MetricName
  | up
  | statusOverall
  | statusCore
  | statusElastic
  | statusSavedObjects
  | heapTotal
  | heapUsed
  | heapSizeLimit
  | residentSet
  | eventLoop
  | requestsTotal
  | responseTime
  | concurrentConn
  | uptime
  | processMemory
  | osCPUPercent
  | osLoadAvg1m
  | osLoadAvg5m
  | osLoadAvg15m
  | osMemTotal
  | osMemFree
  | osMemUsed
  | scrapeDuration
  | scrapeSuccess
deriving DecidableEq, Repr

/-- Function `prometheus.BuildFQName`: joins namespace, subsystem and name with
underscores, skipping empty components. -/
def BuildFQName (ns subsystem name : String) : String :=
  (if ns = "" then "" else ns ++ "_") ++
    (if subsystem = "" then "" else subsystem ++ "_") ++ name

/-- The fully-qualified metric name given to each descriptor in
`NewKibanaCollector` (namespace constant is `"kibana"`). -/
def descName : MetricName → String
  | .up => BuildFQName "kibana" "" "up"
  | .statusOverall => BuildFQName "kibana" "status" "overall"
  | .statusCore => BuildFQName "kibana" "status" "core"
  | .statusElastic => BuildFQName "kibana" "status" "elasticsearch"
  | .statusSavedObjects => BuildFQName "kibana" "status" "saved_objects"
  | .heapTotal => BuildFQName "kibana" "heap" "total_bytes"
  | .heapUsed => BuildFQName "kibana" "heap" "used_bytes"
  | .heapSizeLimit => BuildFQName "kibana" "heap" "size_limit_bytes"
  | .residentSet => BuildFQName "kibana" "memory" "resident_set_bytes"
  | .eventLoop => BuildFQName "kibana" "event_loop" "delay_seconds"
  | .requestsTotal => BuildFQName "kibana" "requests" "total"
  | .responseTime => BuildFQName "kibana" "response_time" "seconds"
  | .concurrentConn => BuildFQName "kibana" "concurrent_connections" "total"
  | .uptime => BuildFQName "kibana" "process" "uptime_seconds"
  | .processMemory => BuildFQName "kibana" "process" "memory_bytes"
  | .osCPUPercent => BuildFQName "kibana" "os" "cpu_percent"
  | .osLoadAvg1m => BuildFQName "kibana" "os" "load_average_1m"
  | .osLoadAvg5m => BuildFQName "kibana" "os" "load_average_5m"
  | .osLoadAvg15m => BuildFQName "kibana" "os" "load_average_15m"
  | .osMemTotal => BuildFQName "kibana" "os" "memory_total_bytes"
  | .osMemFree => BuildFQName "kibana" "os" "memory_free_bytes"
  | .osMemUsed => BuildFQName "kibana" "os" "memory_used_bytes"
  | .scrapeDuration => BuildFQName "kibana" "scrape" "duration_seconds"
  | .scrapeSuccess => BuildFQName "kibana" "scrape" "success"

/-- The variable-label list given to each descriptor in `NewKibanaCollector`
(`nil` for all but `statusCore`, `requestsTotal` and `responseTime`,
`processMemory`). -/
def descVarLabels : MetricName → List String
  | .statusCore => ["name"]
  | .requestsTotal => ["status"]
  | .responseTime => ["quantile"]
  | .processMemory => ["type"]
  | _ => []

/-- Function `Describe`: the descriptors sent to the channel, in source order. -/
def Describe : List MetricName :=
  [.up, .statusOverall, .statusCore, .statusElastic, .statusSavedObjects,
   .heapTotal, .heapUsed, .heapSizeLimit, .residentSet, .eventLoop,
   .requestsTotal, .responseTime, .concurrentConn, .uptime, .processMemory,
   .osCPUPercent, .osLoadAvg1m, .osLoadAvg5m, .osLoadAvg15m,
   .osMemTotal, .osMemFree, .osMemUsed, .scrapeDuration, .scrapeSuccess]

/-- One `prometheus.MustNewConstMetric` emission: descriptor, value,
variable-label values. -/
structure Sample where
  desc : MetricName
  value : ℚ
  labelValues : List String
deriving DecidableEq, Repr

/-- The `switch status.Status.Overall.Level` mapping in `exportStatus`
(`statusValue` starts at `-1.0`). -/
def levelValue (level : String) : ℚ :=
  if level = "available" ∨ level = "green" then 1
  else if level = "degraded" ∨ level = "yellow" then 1/2
  else if level = "unavailable" ∨ level = "red" then 0
  else -1

/-- The `available → 1.0, else 0.0` rule used for core subsystems. -/
def availValue (level : String) : ℚ :=
  if level = "available" then 1 else 0

/-- Emit one sample, rendered through `f`, when the optional value is
present; no sample otherwise.  This is the `if ptr != nil { ch <- ... }`
pattern of `exportStatus`. -/
def optSample {α : Type} (d : MetricName) (v : Option α) (f : α → ℚ)
    (ls : List String) : List Sample :=
  match v with
  | some x => [⟨d, f x, ls⟩]
  | none => []

/-- The `for name, svc := range status.Status.Core` loop.  Go dereferences
`svc.Level` without a nil check, so a `null` map value panics: modelled as
`none` for the whole pass. -/
def coreSamples : List (String × Option ServiceStatus) →
    Option (List Sample)
  | [] => some []
  | p :: rest =>
      match p.2 with
      | none => none
      | some svc =>
          (coreSamples rest).map
            fun l => Sample.mk .statusCore (availValue svc.level) [p.1] :: l

/-- Go map lookup of a nilable pointer value: `m[k]` is nil both when the
key is absent and when it maps to nil. -/
def lookupCore (core : List (String × Option ServiceStatus)) (k : String) :
    Option ServiceStatus :=
  (core.lookup k).join

/-- The `if status.Status.Core[key] != nil` blocks for `elasticsearch`
and `savedObjects`. -/
def subsystemSample (d : MetricName)
    (core : List (String × Option ServiceStatus)) (k : String) :
    List Sample :=
  match lookupCore core k with
  | some svc => [⟨d, availValue svc.level, []⟩]
  | none => []

/-- The `if status.Metrics.Process.Memory != nil` block: three heap gauges
when the heap sub-object is present, plus the resident-set gauge. -/
def processMemorySamples (m : Option MemoryMetrics) : List Sample :=
  match m with
  | none => []
  | some mem =>
      (match mem.heap with
       | some h =>
           [⟨.heapTotal, (h.totalBytes : ℚ), []⟩,
            ⟨.heapUsed, (h.usedBytes : ℚ), []⟩,
            ⟨.heapSizeLimit, (h.sizeLimit : ℚ), []⟩]
       | none => []) ++
      (match mem.resident with
       | some r => [⟨.residentSet, (r : ℚ), []⟩]
       | none => [])

/-- The `if status.Metrics.Requests != nil` block. -/
def requestSamples (r : Option RequestMetrics) : List Sample :=
  match r with
  | none => []
  | some reqs =>
      optSample .requestsTotal reqs.total (fun i => (i : ℚ)) ["total"] ++
      optSample .requestsTotal reqs.disconnects
        (fun i => (i : ℚ)) ["disconnects"] ++
      (match reqs.statusCodes with
       | some codes =>
           codes.map fun p => Sample.mk .requestsTotal (p.2 : ℚ) [p.1]
       | none => [])

/-- The `if status.Metrics.ResponseTimes != nil` block: avg/max divided
by 1000. -/
def responseTimeSamples (r : Option ResponseTimeMetrics) : List Sample :=
  match r with
  | none => []
  | some rt =>
      optSample .responseTime rt.avg (fun v => v / 1000) ["avg"] ++
      optSample .responseTime rt.max (fun v => v / 1000) ["max"]

/-- The `if status.Metrics.OS != nil` block. -/
def osSamples (o : Option OSMetrics) : List Sample :=
  match o with
  | none => []
  | some os =>
      optSample .osCPUPercent
        (Option.bind (Option.bind os.cpu CPUMetrics.controlGroup)
          ControlGroupCPU.cpuPercent) (fun v => v) [] ++
      (match os.load with
       | some ld =>
           optSample .osLoadAvg1m ld.load1m (fun v => v) [] ++
           optSample .osLoadAvg5m ld.load5m (fun v => v) [] ++
           optSample .osLoadAvg15m ld.load15m (fun v => v) []
       | none => []) ++
      (match os.memory with
       | some m =>
           optSample .osMemTotal m.totalBytes (fun i => (i : ℚ)) [] ++
           optSample .osMemFree m.freeBytes (fun i => (i : ℚ)) [] ++
           optSample .osMemUsed m.usedBytes (fun i => (i : ℚ)) []
       | none => [])

/-- Function `exportStatus`: the full translation of a decoded status document into
samples, in source emission order.  `none` models the nil-pointer panic in
the core-status loop. -/
def exportStatus (s : KibanaStatus) : Option (List Sample) :=
  (coreSamples s.status.core).map fun core =>
    [⟨.statusOverall, levelValue s.status.overall.level, []⟩] ++
    core ++
    subsystemSample .statusElastic s.status.core "elasticsearch" ++
    subsystemSample .statusSavedObjects s.status.core "savedObjects" ++
    processMemorySamples s.metrics.process.memory ++
    optSample .eventLoop s.metrics.process.eventLoopDelay
      (fun v => v / 1000) [] ++
    optSample .uptime s.metrics.process.uptime (fun v => v / 1000) [] ++
    requestSamples s.metrics.requests ++
    optSample .concurrentConn s.metrics.concurrentConnections
      (fun i => (i : ℚ)) [] ++
    responseTimeSamples s.metrics.responseTimes ++
    osSamples s.metrics.os

/-- The error kinds of the status client (`scrapeKibana` wraps its three
failure cases with distinct messages: `making request: %w`,
`unexpected status %d: %s`, `decoding response: %w`). -/
inductive ClientError
  | networkError (cause : String)
  | unexpectedStatus (code : Nat) (body : String)
  | decodeError (cause : String)
deriving DecidableEq, Repr

/-- The observable outcome of executing one HTTP request against
`<base>/api/status`: either a transport/timeout failure, or a response
carrying a status code, the result of a best-effort body read (`none` when
reading the body itself fails), and the result of JSON-decoding the body
into a `KibanaStatus`. -/
inductive HttpOutcome
  | transportError (cause : String)
  | response (statusCode : Nat) (bodyRead : Option String)
      (decoded : Except String KibanaStatus)

/-- Function `scrapeKibana`: consumes the outcome of the single HTTP attempt
(index 0 of the attempt oracle; no other attempt is ever consulted).
Non-200 responses read the body best-effort (`body, _ := io.ReadAll`, a
read failure yields the empty string); 200 responses are JSON-decoded. -/
def scrapeKibana (attempts : Nat → HttpOutcome) :
    Except ClientError KibanaStatus :=
  match attempts 0 with
  | .transportError cause => .error (.networkError cause)
  | .response code bodyRead decoded =>
      if code ≠ 200 then
        .error (.unexpectedStatus code (bodyRead.getD ""))
      else
        match decoded with
        | .error cause => .error (.decodeError cause)
        | .ok s => .ok s

/-- Function `CheckHealth`: same single request, but the body is never read or
parsed; only the status code is inspected. -/
def CheckHealth (attempts : Nat → HttpOutcome) : Except String Unit :=
  match attempts 0 with
  | .transportError cause => .error cause
  | .response code _ _ =>
      if code ≠ 200 then
        .error ("kibana returned status " ++ toString code)
      else
        .ok ()

/-- Function `Collect`: one collection pass, given the fetch result and the
measured wall-clock duration.  The duration sample is emitted
unconditionally; on fetch failure only `up=0` and `scrape_success=0`
follow; on success `up=1`, `scrape_success=1` and the full translation.
`none` models a panic inside the translation. -/
def Collect (fetch : Except ClientError KibanaStatus) (duration : ℚ) :
    Option (List Sample) :=
  match fetch with
  | .error _ =>
      some [⟨.scrapeDuration, duration, []⟩, ⟨.up, 0, []⟩,
            ⟨.scrapeSuccess, 0, []⟩]
  | .ok s =>
      (exportStatus s).map fun rest =>
        [⟨.scrapeDuration, duration, []⟩, ⟨.up, 1, []⟩,
         ⟨.scrapeSuccess, 1, []⟩] ++ rest

/-- How many samples in `out` target descriptor `d` with label values
`ls` — the "descriptor-label combination" count of the spec. -/
def countDesc (out : List Sample) (d : MetricName) (ls : List String) :
    Nat :=
  out.countP fun sm => decide (sm.desc = d ∧ sm.labelValues = ls)

/-- The `encoding/json` semantics for the plain (non-pointer) `int64` fields of
`HeapMetrics`: a key absent from the JSON object leaves the Go zero value,
so absence decodes to `0`, indistinguishable from an explicit zero. -/
def decodeHeap (t u l : Option Int) : HeapMetrics :=
  ⟨t.getD 0, u.getD 0, l.getD 0⟩

/-! Concurrency model of `Collect`'s mutual exclusion: each caller thread
runs `mutex.Lock(); scrapeKibana(); exportStatus(); mutex.Unlock()`.
A thread's phase tracks where it is in that sequence; `fetching` is the
interval during which its call into the status client is in flight. -/

/-- Where a thread is inside one `Collect` invocation. -/
inductive Phase
  | idle
  | fetching
  | translating
  | done
deriving DecidableEq, Repr

/-- Global state: who holds `c.mutex`, and each thread's phase. -/
structure CollectState where
  holder : Option Nat
  phase : Nat → Phase

/-- Pointwise update of a phase assignment. -/
def setPhase (f : Nat → Phase) (t : Nat) (p : Phase) : Nat → Phase :=
  fun u => if u = t then p else f u

/-- All threads idle, the mutex free. -/
def initState : CollectState :=
  ⟨none, fun _ => .idle⟩

/-- Interleaving steps of concurrent `Collect` callers: a thread acquires
the free mutex and starts its fetch; its fetch returns and it translates;
it finishes and releases the mutex. -/
inductive CollectStep : CollectState → CollectState → Prop
  | acquire (s : CollectState) (t : Nat) :
      s.phase t = .idle → s.holder = none →
      CollectStep s ⟨some t, setPhase s.phase t .fetching⟩
  | fetchReturns (s : CollectState) (t : Nat) :
      s.phase t = .fetching →
      CollectStep s ⟨s.holder, setPhase s.phase t .translating⟩
  | release (s : CollectState) (t : Nat) :
      s.phase t = .translating →
      CollectStep s ⟨none, setPhase s.phase t .done⟩

/-- States reachable from the initial state by interleaved steps. -/
inductive ReachableState : CollectState → Prop
  | init : ReachableState initState
  | step {s s' : CollectState} :
      ReachableState s → CollectStep s s' → ReachableState s'

/-- Lock invariant: any thread past `mutex.Lock()` and before
`mutex.Unlock()` is the mutex holder. -/
def LockInv (s : CollectState) : Prop :=
  ∀ t, s.phase t = .fetching ∨ s.phase t = .translating →
    s.holder = some t

/-! Concrete documents used to witness the theorems below. -/

/-- A status document with every optional field populated. -/
def docFull : KibanaStatus :=
  { name := "kibana", uuid := "uuid-1",
    version := ⟨"8.0.0", "hash", 1, false⟩,
    status :=
      ⟨⟨"green", "ok"⟩,
       [("elasticsearch", some ⟨"available", "ok"⟩),
        ("savedObjects", some ⟨"available", "ok"⟩)],
       []⟩,
    metrics :=
      { collectedAt := "now", concurrentConnections := some 7,
        process :=
          ⟨some ⟨some ⟨100, 50, 200⟩, some 4096⟩, some 250, some 60000⟩,
        os := some ⟨some ⟨some ⟨some 12⟩⟩, some ⟨some 1, some 2, some 3⟩,
          some ⟨some 1000, some 400, some 600⟩⟩,
        requests := some ⟨some 5, some 1, some [("200", 3), ("404", 2)]⟩,
        responseTimes := some ⟨some 250, some 500⟩ } }

/-- The sample list `exportStatus` produces for `docFull`. -/
def docFullOut : List Sample :=
  (exportStatus docFull).getD []

/-- A decodable document whose core map holds a `null` service entry
(upstream JSON `{"status":{"core":{"example":null}}}`). -/
def docNullCore : KibanaStatus :=
  { name := "kibana", uuid := "uuid-2",
    version := ⟨"8.0.0", "hash", 1, false⟩,
    status := ⟨⟨"green", "ok"⟩, [("example", none)], []⟩,
    metrics :=
      { collectedAt := "now", concurrentConnections := none,
        process := ⟨none, none, none⟩,
        os := none, requests := none, responseTimes := none } }

/-- A decodable document whose per-status-code map uses the literal key
`"total"` while the request total field itself is absent. -/
def docCodeTotal : KibanaStatus :=
  { name := "kibana", uuid := "uuid-3",
    version := ⟨"8.0.0", "hash", 1, false⟩,
    status := ⟨⟨"green", "ok"⟩, [], []⟩,
    metrics :=
      { collectedAt := "now", concurrentConnections := none,
        process := ⟨none, none, none⟩,
        os := none, requests := some ⟨none, none, some [("total", 3)]⟩,
        responseTimes := none } }

/-- A document whose heap sub-object was decoded from JSON lacking the
`total_in_bytes` key. -/
def docHeapGaps : KibanaStatus :=
  { name := "kibana", uuid := "uuid-4",
    version := ⟨"8.0.0", "hash", 1, false⟩,
    status := ⟨⟨"green", "ok"⟩, [], []⟩,
    metrics :=
      { collectedAt := "now", concurrentConnections := none,
        process :=
          ⟨some ⟨some (decodeHeap none (some 50) (some 200)), none⟩,
           none, none⟩,
        os := none, requests := none, responseTimes := none } }

/-- The sample list of a failed collection pass with duration 1s. -/
def cErrOut : List Sample :=
  (Collect (.error (.networkError "boom")) 1).getD []

theorem lockInv_init : LockInv initState := by
  intro t h
  rcases h with h | h <;> simp [initState] at h

theorem lockInv_step {s s' : CollectState} (hinv : LockInv s)
    (hstep : CollectStep s s') : LockInv s' := by
  cases hstep with
  | acquire t hidle hfree =>
      intro u hu
      by_cases hut : u = t
      · simp [hut]
      · exfalso
        simp only [setPhase, if_neg hut] at hu
        have := hinv u hu
        rw [hfree] at this
        exact Option.noConfusion this
  | fetchReturns t hf =>
      intro u hu
      by_cases hut : u = t
      · subst hut
        exact hinv u (Or.inl hf)
      · simp only [setPhase, if_neg hut] at hu
        exact hinv u hu
  | release t htr =>
      intro u hu
      exfalso
      by_cases hut : u = t
      · subst hut
        simp [setPhase] at hu
      · simp only [setPhase, if_neg hut] at hu
        have h1 := hinv u hu
        have h2 := hinv t (Or.inr htr)
        rw [h2] at h1
        exact hut (Option.some.inj h1).symm

theorem lockInv_reachable {s : CollectState} (h : ReachableState s) :
    LockInv s := by
  induction h with
  | init => exact lockInv_init
  | step _ hstep ih => exact lockInv_step ih hstep

/-! Counting lemmas for `countDesc` over the section functions. -/

theorem countDesc_nil (d : MetricName) (ls : List String) :
    countDesc [] d ls = 0 := rfl

theorem countDesc_append (a b : List Sample) (d : MetricName)
    (ls : List String) :
    countDesc (a ++ b) d ls = countDesc a d ls + countDesc b d ls :=
  List.countP_append _ _ _

theorem countDesc_cons (sm : Sample) (out : List Sample) (d : MetricName)
    (ls : List String) :
    countDesc (sm :: out) d ls =
      countDesc out d ls +
        (if sm.desc = d ∧ sm.labelValues = ls then 1 else 0) := by
  simp [countDesc, List.countP_cons]

theorem countDesc_single (d' d : MetricName) (v : ℚ)
    (ls' ls : List String) :
    countDesc [⟨d', v, ls'⟩] d ls =
      if d' = d ∧ ls' = ls then 1 else 0 := by
  simp [countDesc, List.countP_cons]

theorem countDesc_optSample {α : Type} (d' d : MetricName) (v : Option α)
    (f : α → ℚ) (ls' ls : List String) :
    countDesc (optSample d' v f ls') d ls =
      if d' = d ∧ ls' = ls ∧ v.isSome then 1 else 0 := by
  cases v <;>
    simp [optSample, countDesc, List.countP_cons]

theorem countDesc_eq_zero (out : List Sample) (d : MetricName)
    (ls : List String) (h : ∀ sm ∈ out, sm.desc ≠ d) :
    countDesc out d ls = 0 := by
  induction out with
  | nil => rfl
  | cons sm rest ih =>
      rw [countDesc_cons, ih fun x hx => h x (List.mem_cons_of_mem sm hx)]
      simp [h sm (List.mem_cons_self sm rest)]

theorem countDesc_subsystemSample (d' : MetricName)
    (core : List (String × Option ServiceStatus)) (k : String)
    (d : MetricName) (ls : List String) :
    countDesc (subsystemSample d' core k) d ls =
      if d' = d ∧ ([] : List String) = ls ∧ (lookupCore core k).isSome
      then 1 else 0 := by
  unfold subsystemSample
  cases lookupCore core k <;> simp [countDesc, List.countP_cons, and_assoc]

theorem countDesc_processMemorySamples (m : Option MemoryMetrics)
    (d : MetricName) (ls : List String) :
    countDesc (processMemorySamples m) d ls =
      (if MetricName.heapTotal = d ∧ ([] : List String) = ls ∧
          (Option.bind m MemoryMetrics.heap).isSome then 1 else 0) +
      (if MetricName.heapUsed = d ∧ ([] : List String) = ls ∧
          (Option.bind m MemoryMetrics.heap).isSome then 1 else 0) +
      (if MetricName.heapSizeLimit = d ∧ ([] : List String) = ls ∧
          (Option.bind m MemoryMetrics.heap).isSome then 1 else 0) +
      (if MetricName.residentSet = d ∧ ([] : List String) = ls ∧
          (Option.bind m MemoryMetrics.resident).isSome then 1 else 0) := by
  cases m with
  | none => simp [processMemorySamples, countDesc_nil]
  | some mem =>
      cases hh : mem.heap <;> cases hr : mem.resident <;>
        simp [processMemorySamples, hh, hr, countDesc_append,
          countDesc_cons, countDesc_nil, and_assoc] <;> omega

theorem countDesc_coreSamples_ne {core : List (String × Option ServiceStatus)}
    {l : List Sample} (hl : coreSamples core = some l) (d : MetricName)
    (ls : List String) (hd : MetricName.statusCore ≠ d) :
    countDesc l d ls = 0 := by
  induction core generalizing l with
  | nil =>
      simp only [coreSamples, Option.some.injEq] at hl
      rw [← hl]; rfl
  | cons p rest ih =>
      unfold coreSamples at hl
      cases hp : p.2 with
      | none => rw [hp] at hl; exact Option.noConfusion hl
      | some svc =>
          rw [hp] at hl
          rcases Option.map_eq_some'.mp hl with ⟨lr, hlr, rfl⟩
          rw [countDesc_cons, ih hlr]
          simp [hd]

theorem countDesc_coreSamples_name
    {core : List (String × Option ServiceStatus)} {l : List Sample}
    (hl : coreSamples core = some l)
    (hnd : (core.map Prod.fst).Nodup) (name : String) :
    countDesc l .statusCore [name] =
      if name ∈ core.map Prod.fst then 1 else 0 := by
  induction core generalizing l with
  | nil =>
      simp only [coreSamples, Option.some.injEq] at hl
      rw [← hl]; simp [countDesc_nil]
  | cons p rest ih =>
      unfold coreSamples at hl
      cases hp : p.2 with
      | none => rw [hp] at hl; exact Option.noConfusion hl
      | some svc =>
          rw [hp] at hl
          rcases Option.map_eq_some'.mp hl with ⟨lr, hlr, rfl⟩
          simp only [List.map_cons, List.nodup_cons] at hnd
          rw [countDesc_cons, ih hlr hnd.2]
          by_cases hname : name = p.1
          · subst hname
            simp [hnd.1]
          · have h1 : (name ∈ List.map Prod.fst (p :: rest)) =
                (name ∈ List.map Prod.fst rest) := by
              simp [List.mem_cons, hname]
            simp only [h1]
            simp [Ne.symm hname]

theorem countDesc_mapCodes (codes : List (String × Int)) (d : MetricName)
    (ls : List String) :
    countDesc (codes.map fun p => Sample.mk .requestsTotal (p.2 : ℚ) [p.1])
      d ls =
      codes.countP fun p =>
        decide (MetricName.requestsTotal = d ∧ [p.1] = ls) := by
  simp only [countDesc, List.countP_map]
  rfl

theorem countP_keys (codes : List (String × Int)) (k : String)
    (hnd : (codes.map Prod.fst).Nodup) :
    (codes.countP fun p => decide (p.1 = k)) =
      if k ∈ codes.map Prod.fst then 1 else 0 := by
  induction codes with
  | nil => rfl
  | cons p rest ih =>
      simp only [List.map_cons, List.nodup_cons] at hnd
      rw [List.countP_cons, ih hnd.2]
      by_cases hk : p.1 = k
      · subst hk
        simp [hnd.1]
      · have h1 : (k ∈ List.map Prod.fst (p :: rest)) =
            (k ∈ List.map Prod.fst rest) := by
          simp [List.mem_cons, Ne.symm hk]
        simp only [h1]
        simp [hk]

theorem countDesc_requestSamples_ne (r : Option RequestMetrics)
    (d : MetricName) (ls : List String)
    (hd : MetricName.requestsTotal ≠ d) :
    countDesc (requestSamples r) d ls = 0 := by
  cases r with
  | none => rfl
  | some reqs =>
      cases hc : reqs.statusCodes <;>
        simp [requestSamples, hc, countDesc_append, countDesc_optSample,
          countDesc_nil, countDesc_mapCodes, hd]

theorem countDesc_requestSamples_labeled (r : Option RequestMetrics)
    (k : String) :
    countDesc (requestSamples r) .requestsTotal [k] =
      (if "total" = k ∧ (Option.bind r RequestMetrics.total).isSome
       then 1 else 0) +
      (if "disconnects" = k ∧
          (Option.bind r RequestMetrics.disconnects).isSome
       then 1 else 0) +
      ((Option.bind r RequestMetrics.statusCodes).getD []).countP
        (fun p => decide (p.1 = k)) := by
  cases r with
  | none => simp [requestSamples, countDesc_nil]
  | some reqs =>
      cases hc : reqs.statusCodes <;>
        simp [requestSamples, hc, countDesc_append, countDesc_optSample,
          countDesc_nil, countDesc_mapCodes, and_assoc] <;> omega

theorem countDesc_responseTimeSamples_ne (r : Option ResponseTimeMetrics)
    (d : MetricName) (ls : List String)
    (hd : MetricName.responseTime ≠ d) :
    countDesc (responseTimeSamples r) d ls = 0 := by
  cases r with
  | none => rfl
  | some rt =>
      simp [responseTimeSamples, countDesc_append, countDesc_optSample,
        countDesc_nil, hd]

theorem countDesc_responseTimeSamples_labeled
    (r : Option ResponseTimeMetrics) (q : String) :
    countDesc (responseTimeSamples r) .responseTime [q] =
      (if "avg" = q ∧ (Option.bind r ResponseTimeMetrics.avg).isSome
       then 1 else 0) +
      (if "max" = q ∧ (Option.bind r ResponseTimeMetrics.max).isSome
       then 1 else 0) := by
  cases r with
  | none => simp [responseTimeSamples, countDesc_nil]
  | some rt =>
      simp [responseTimeSamples, countDesc_append, countDesc_optSample,
        countDesc_nil, and_assoc]

theorem countDesc_osSamples (o : Option OSMetrics) (d : MetricName)
    (ls : List String) :
    countDesc (osSamples o) d ls =
      (if MetricName.osCPUPercent = d ∧ ([] : List String) = ls ∧
          (Option.bind
            (Option.bind (Option.bind o OSMetrics.cpu)
              CPUMetrics.controlGroup)
            ControlGroupCPU.cpuPercent).isSome then 1 else 0) +
      (if MetricName.osLoadAvg1m = d ∧ ([] : List String) = ls ∧
          (Option.bind (Option.bind o OSMetrics.load)
            LoadMetrics.load1m).isSome then 1 else 0) +
      (if MetricName.osLoadAvg5m = d ∧ ([] : List String) = ls ∧
          (Option.bind (Option.bind o OSMetrics.load)
            LoadMetrics.load5m).isSome then 1 else 0) +
      (if MetricName.osLoadAvg15m = d ∧ ([] : List String) = ls ∧
          (Option.bind (Option.bind o OSMetrics.load)
            LoadMetrics.load15m).isSome then 1 else 0) +
      (if MetricName.osMemTotal = d ∧ ([] : List String) = ls ∧
          (Option.bind (Option.bind o OSMetrics.memory)
            OSMemoryMetrics.totalBytes).isSome then 1 else 0) +
      (if MetricName.osMemFree = d ∧ ([] : List String) = ls ∧
          (Option.bind (Option.bind o OSMetrics.memory)
            OSMemoryMetrics.freeBytes).isSome then 1 else 0) +
      (if MetricName.osMemUsed = d ∧ ([] : List String) = ls ∧
          (Option.bind (Option.bind o OSMetrics.memory)
            OSMemoryMetrics.usedBytes).isSome then 1 else 0) := by
  cases o with
  | none => simp [osSamples, countDesc_nil]
  | some os =>
      cases hl : os.load <;> cases hm : os.memory <;>
        simp [osSamples, hl, hm, countDesc_append, countDesc_optSample,
          countDesc_nil, and_assoc] <;> omega

theorem exportStatus_eq {s : KibanaStatus} {out : List Sample}
    (hs : exportStatus s = some out) :
    ∃ l, coreSamples s.status.core = some l ∧
      out =
        [⟨.statusOverall, levelValue s.status.overall.level, []⟩] ++ l ++
        subsystemSample .statusElastic s.status.core "elasticsearch" ++
        subsystemSample .statusSavedObjects s.status.core "savedObjects" ++
        processMemorySamples s.metrics.process.memory ++
        optSample .eventLoop s.metrics.process.eventLoopDelay
          (fun v => v / 1000) [] ++
        optSample .uptime s.metrics.process.uptime (fun v => v / 1000) [] ++
        requestSamples s.metrics.requests ++
        optSample .concurrentConn s.metrics.concurrentConnections
          (fun i => (i : ℚ)) [] ++
        responseTimeSamples s.metrics.responseTimes ++
        osSamples s.metrics.os := by
  unfold exportStatus at hs
  rcases Option.map_eq_some'.mp hs with ⟨l, hl, heq⟩
  exact ⟨l, hl, heq.symm⟩

theorem countDesc_pos_of_mem {out : List Sample} {sm : Sample}
    (h : sm ∈ out) : 0 < countDesc out sm.desc sm.labelValues := by
  rw [countDesc, List.countP_pos]
  exact ⟨sm, h, by simp⟩

/-- Every label combination of the never-driven `processMemory` descriptor
counts zero in any successful translation. -/
theorem countDesc_exportStatus_processMemory {s : KibanaStatus}
    {out : List Sample} (hs : exportStatus s = some out)
    (ls : List String) :
    countDesc out .processMemory ls = 0 := by
  rcases exportStatus_eq hs with ⟨l, hl, rfl⟩
  simp [countDesc_append, countDesc_cons, countDesc_nil, countDesc_single,
    countDesc_optSample, countDesc_subsystemSample,
    countDesc_processMemorySamples, countDesc_requestSamples_ne,
    countDesc_responseTimeSamples_ne, countDesc_osSamples,
    countDesc_coreSamples_ne hl]

/-- C2: for every status document the translation emits exactly one
overall-status gauge, valued by the level mapping
`available`/`green` ↦ 1, `degraded`/`yellow` ↦ 1/2,
`unavailable`/`red` ↦ 0, and any other string ↦ -1. -/
theorem overall_status_gauge_mapping (s : KibanaStatus) (out : List Sample)
    (hs : exportStatus s = some out) :
    countDesc out .statusOverall [] = 1 ∧
    Sample.mk .statusOverall (levelValue s.status.overall.level) [] ∈ out ∧
    (∀ lv, lv = "available" ∨ lv = "green" → levelValue lv = 1) ∧
    (∀ lv, lv = "degraded" ∨ lv = "yellow" → levelValue lv = 1/2) ∧
    (∀ lv, lv = "unavailable" ∨ lv = "red" → levelValue lv = 0) ∧
    (∀ lv, lv ≠ "available" → lv ≠ "green" → lv ≠ "degraded" →
      lv ≠ "yellow" → lv ≠ "unavailable" → lv ≠ "red" →
      levelValue lv = -1) := by
  rcases exportStatus_eq hs with ⟨l, hl, rfl⟩
  refine ⟨?_, ?_, ?_, ?_, ?_, ?_⟩
  · simp [countDesc_append, countDesc_cons, countDesc_nil,
      countDesc_single, countDesc_optSample, countDesc_subsystemSample,
      countDesc_processMemorySamples, countDesc_requestSamples_ne,
      countDesc_responseTimeSamples_ne, countDesc_osSamples,
      countDesc_coreSamples_ne hl]
  · simp [List.mem_append, List.mem_cons]
  · rintro lv (rfl | rfl) <;> simp [levelValue]
  · rintro lv (rfl | rfl) <;> simp [levelValue]
  · rintro lv (rfl | rfl) <;> simp [levelValue]
  · intro lv h1 h2 h3 h4 h5 h6
    simp [levelValue, h1, h2, h3, h4, h5, h6]

theorem overall_status_gauge_mapping_witness :
    countDesc docFullOut .statusOverall [] = 1 ∧ levelValue "green" = 1 :=
  ⟨(overall_status_gauge_mapping docFull docFullOut rfl).1,
   (overall_status_gauge_mapping docFull docFullOut rfl).2.2.1 "green"
     (Or.inr rfl)⟩

/-- C3: on a fetch failure a collection pass emits exactly the three
samples `scrape_duration_seconds` (the measured duration, nonnegative),
`up = 0` and `scrape_success = 0`, and nothing else. -/
theorem collect_failure_exactly_three (e : ClientError) (dur : ℚ)
    (h : 0 ≤ dur) :
    Collect (.error e) dur =
      some [⟨.scrapeDuration, dur, []⟩, ⟨.up, 0, []⟩,
            ⟨.scrapeSuccess, 0, []⟩] ∧
    0 ≤ dur :=
  ⟨rfl, h⟩

theorem collect_failure_exactly_three_witness :
    Collect (.error (.networkError "timeout")) 1 =
      some [⟨.scrapeDuration, 1, []⟩, ⟨.up, 0, []⟩,
            ⟨.scrapeSuccess, 0, []⟩] ∧
    (0 : ℚ) ≤ 1 :=
  collect_failure_exactly_three (.networkError "timeout") 1 (by norm_num)

/-- C5 fails on the code: the core-status loop dereferences a nil
`*ServiceStatus` without the nil check the elasticsearch/savedObjects
branches perform, so the decodable document
`{"status":{"core":{"example":null}}}` panics the translation instead of
completing it. -/
theorem null_core_entry_panics :
    exportStatus docNullCore = none ∧ Collect (.ok docNullCore) 1 = none :=
  ⟨rfl, rfl⟩

/-- C4: each millisecond-denominated source field that is present yields
exactly one second-denominated sample whose value is the source value
divided by 1000. -/
theorem ms_to_seconds (s : KibanaStatus) (out : List Sample)
    (hs : exportStatus s = some out) :
    (∀ v, s.metrics.process.eventLoopDelay = some v →
      Sample.mk .eventLoop (v / 1000) [] ∈ out ∧
      countDesc out .eventLoop [] = 1) ∧
    (∀ v, s.metrics.process.uptime = some v →
      Sample.mk .uptime (v / 1000) [] ∈ out ∧
      countDesc out .uptime [] = 1) ∧
    (∀ rt v, s.metrics.responseTimes = some rt → rt.avg = some v →
      Sample.mk .responseTime (v / 1000) ["avg"] ∈ out ∧
      countDesc out .responseTime ["avg"] = 1) ∧
    (∀ rt v, s.metrics.responseTimes = some rt → rt.max = some v →
      Sample.mk .responseTime (v / 1000) ["max"] ∈ out ∧
      countDesc out .responseTime ["max"] = 1) := by
  rcases exportStatus_eq hs with ⟨l, hl, rfl⟩
  refine ⟨fun v hv => ⟨?_, ?_⟩, fun v hv => ⟨?_, ?_⟩,
    fun rt v hrt hv => ⟨?_, ?_⟩, fun rt v hrt hv => ⟨?_, ?_⟩⟩
  · simp [hv, optSample, List.mem_append, List.mem_cons]
  · simp [hv, countDesc_append, countDesc_cons, countDesc_nil,
      countDesc_single, countDesc_optSample, countDesc_subsystemSample,
      countDesc_processMemorySamples, countDesc_requestSamples_ne,
      countDesc_responseTimeSamples_ne, countDesc_osSamples,
      countDesc_coreSamples_ne hl]
  · simp [hv, optSample, List.mem_append, List.mem_cons]
  · simp [hv, countDesc_append, countDesc_cons, countDesc_nil,
      countDesc_single, countDesc_optSample, countDesc_subsystemSample,
      countDesc_processMemorySamples, countDesc_requestSamples_ne,
      countDesc_responseTimeSamples_ne, countDesc_osSamples,
      countDesc_coreSamples_ne hl]
  · simp [hrt, hv, responseTimeSamples, optSample, List.mem_append,
      List.mem_cons]
  · simp [hrt, hv, countDesc_append, countDesc_cons, countDesc_nil,
      countDesc_single, countDesc_optSample, countDesc_subsystemSample,
      countDesc_processMemorySamples, countDesc_requestSamples_ne,
      countDesc_responseTimeSamples_labeled, countDesc_osSamples,
      countDesc_coreSamples_ne hl]
  · simp [hrt, hv, responseTimeSamples, optSample, List.mem_append,
      List.mem_cons]
  · simp [hrt, hv, countDesc_append, countDesc_cons, countDesc_nil,
      countDesc_single, countDesc_optSample, countDesc_subsystemSample,
      countDesc_processMemorySamples, countDesc_requestSamples_ne,
      countDesc_responseTimeSamples_labeled, countDesc_osSamples,
      countDesc_coreSamples_ne hl]

theorem ms_to_seconds_witness :
    Sample.mk .eventLoop ((250 : ℚ) / 1000) [] ∈ docFullOut ∧
    countDesc docFullOut .eventLoop [] = 1 ∧
    ((250 : ℚ) / 1000) = 1/4 :=
  ⟨((ms_to_seconds docFull docFullOut rfl).1 250 rfl).1,
   ((ms_to_seconds docFull docFullOut rfl).1 250 rfl).2, by norm_num⟩

/-- C10: when the heap sub-object is present, all three heap gauges are
emitted even if some of its scalar JSON keys were absent; an absent key
decodes (via the non-pointer `int64` fields) to 0 and is rendered as a
zero-valued sample. -/
theorem heap_absent_fields_zero (s : KibanaStatus) (out : List Sample)
    (mem : MemoryMetrics) (t u l : Option Int)
    (hmem : s.metrics.process.memory = some mem)
    (hheap : mem.heap = some (decodeHeap t u l))
    (hs : exportStatus s = some out) :
    countDesc out .heapTotal [] = 1 ∧
    countDesc out .heapUsed [] = 1 ∧
    countDesc out .heapSizeLimit [] = 1 ∧
    Sample.mk .heapTotal ((t.getD 0 : Int) : ℚ) [] ∈ out ∧
    Sample.mk .heapUsed ((u.getD 0 : Int) : ℚ) [] ∈ out ∧
    Sample.mk .heapSizeLimit ((l.getD 0 : Int) : ℚ) [] ∈ out := by
  rcases exportStatus_eq hs with ⟨lc, hl, rfl⟩
  have hcount : ∀ d : MetricName,
      (MetricName.heapTotal = d ∨ MetricName.heapUsed = d ∨
        MetricName.heapSizeLimit = d) →
      countDesc
        ([⟨.statusOverall, levelValue s.status.overall.level, []⟩] ++ lc ++
          subsystemSample .statusElastic s.status.core "elasticsearch" ++
          subsystemSample .statusSavedObjects s.status.core
            "savedObjects" ++
          processMemorySamples s.metrics.process.memory ++
          optSample .eventLoop s.metrics.process.eventLoopDelay
            (fun v => v / 1000) [] ++
          optSample .uptime s.metrics.process.uptime
            (fun v => v / 1000) [] ++
          requestSamples s.metrics.requests ++
          optSample .concurrentConn s.metrics.concurrentConnections
            (fun i => (i : ℚ)) [] ++
          responseTimeSamples s.metrics.responseTimes ++
          osSamples s.metrics.os) d [] = 1 := by
    rintro d (rfl | rfl | rfl) <;>
      simp [hmem, hheap, countDesc_append, countDesc_cons, countDesc_nil,
        countDesc_single, countDesc_optSample, countDesc_subsystemSample,
        countDesc_processMemorySamples, countDesc_requestSamples_ne,
        countDesc_responseTimeSamples_ne, countDesc_osSamples,
        countDesc_coreSamples_ne hl]
  refine ⟨hcount _ (Or.inl rfl), hcount _ (Or.inr (Or.inl rfl)),
    hcount _ (Or.inr (Or.inr rfl)), ?_, ?_, ?_⟩ <;>
    simp [hmem, hheap, decodeHeap, processMemorySamples,
      List.mem_append, List.mem_cons]

theorem heap_absent_fields_zero_witness :
    countDesc ((exportStatus docHeapGaps).getD []) .heapTotal [] = 1 ∧
    Sample.mk .heapTotal ((0 : Int) : ℚ) [] ∈
      (exportStatus docHeapGaps).getD [] :=
  ⟨(heap_absent_fields_zero docHeapGaps _ _ none (some 50) (some 200)
      rfl rfl rfl).1,
   (heap_absent_fields_zero docHeapGaps _ _ none (some 50) (some 200)
      rfl rfl rfl).2.2.2.1⟩

/-- C9: `Describe` advertises exactly 24 descriptors, among them
`kibana_process_memory_bytes{type}`, which no collection pass — failed or
successful — ever drives with a sample. -/
theorem describe_catalog :
    Describe.length = 24 ∧
    MetricName.processMemory ∈ Describe ∧
    descName .processMemory = "kibana_process_memory_bytes" ∧
    descVarLabels .processMemory = ["type"] ∧
    (∀ fetch dur out, Collect fetch dur = some out →
      ∀ sm ∈ out, sm.desc ≠ .processMemory) := by
  refine ⟨rfl, by simp [Describe], rfl, rfl, ?_⟩
  intro fetch dur out hout sm hsm
  cases fetch with
  | error e =>
      simp only [Collect, Option.some.injEq] at hout
      rw [← hout] at hsm
      simp only [List.mem_cons, List.not_mem_nil, or_false] at hsm
      rcases hsm with rfl | rfl | rfl <;> simp
  | ok s =>
      simp only [Collect] at hout
      rcases Option.map_eq_some'.mp hout with ⟨rest, hrest, heq⟩
      rw [← heq] at hsm
      rcases List.mem_append.mp hsm with h | h
      · simp only [List.mem_cons, List.not_mem_nil, or_false] at h
        rcases h with rfl | rfl | rfl <;> simp
      · intro hdesc
        have hpos := countDesc_pos_of_mem h
        rw [hdesc, countDesc_exportStatus_processMemory hrest] at hpos
        exact absurd hpos (lt_irrefl 0)

theorem describe_catalog_witness :
    (⟨.processMemory, 0, []⟩ : Sample) ∉ cErrOut := fun hmem =>
  describe_catalog.2.2.2.2 (.error (.networkError "boom")) 1 cErrOut rfl
    ⟨.processMemory, 0, []⟩ hmem rfl

/-- C6: the status client makes exactly one HTTP attempt (its result
depends only on attempt 0 of the oracle) and classifies failures as:
transport failure ↦ network error with cause; non-200 ↦ status error with
code and best-effort body (a failed body read is swallowed to ""); 200
with unparsable body ↦ decode error with cause; 200 with parsable body ↦
the decoded document. -/
theorem scrape_client_contract :
    (∀ a b : Nat → HttpOutcome, a 0 = b 0 →
      scrapeKibana a = scrapeKibana b) ∧
    (∀ (a : Nat → HttpOutcome) cause, a 0 = .transportError cause →
      scrapeKibana a = .error (.networkError cause)) ∧
    (∀ (a : Nat → HttpOutcome) code br dec, a 0 = .response code br dec →
      code ≠ 200 →
      scrapeKibana a = .error (.unexpectedStatus code (br.getD ""))) ∧
    (∀ (a : Nat → HttpOutcome) br cause,
      a 0 = .response 200 br (.error cause) →
      scrapeKibana a = .error (.decodeError cause)) ∧
    (∀ (a : Nat → HttpOutcome) br s, a 0 = .response 200 br (.ok s) →
      scrapeKibana a = .ok s) := by
  refine ⟨?_, ?_, ?_, ?_, ?_⟩
  · intro a b h
    unfold scrapeKibana
    rw [h]
  · intro a cause h
    unfold scrapeKibana
    rw [h]
  · intro a code br dec h hcode
    unfold scrapeKibana
    rw [h]
    simp [hcode]
  · intro a br cause h
    unfold scrapeKibana
    rw [h]
    simp
  · intro a br s h
    unfold scrapeKibana
    rw [h]
    simp

theorem scrape_client_contract_witness :
    scrapeKibana (fun _ => .transportError "refused") =
      .error (.networkError "refused") ∧
    scrapeKibana (fun _ => .response 503 none (.error "x")) =
      .error (.unexpectedStatus 503 "") ∧
    scrapeKibana (fun _ => .response 200 (some "body") (.error "bad")) =
      .error (.decodeError "bad") ∧
    scrapeKibana (fun _ => .response 200 none (.ok docFull)) =
      .ok docFull :=
  ⟨scrape_client_contract.2.1 _ "refused" rfl,
   scrape_client_contract.2.2.1 _ 503 none (.error "x") rfl (by decide),
   scrape_client_contract.2.2.2.1 _ (some "body") "bad" rfl,
   scrape_client_contract.2.2.2.2 _ none docFull rfl⟩

/-- C7: the health check succeeds exactly when the single request yields
an HTTP 200 response; the body (read or decode outcome) never influences
the result, and any transport failure or other status code fails. -/
theorem checkHealth_contract :
    (∀ (a : Nat → HttpOutcome) code br dec, a 0 = .response code br dec →
      (CheckHealth a = .ok () ↔ code = 200)) ∧
    (∀ (a : Nat → HttpOutcome) cause, a 0 = .transportError cause →
      CheckHealth a = .error cause) ∧
    (∀ code br dec br' dec',
      CheckHealth (fun _ => HttpOutcome.response code br dec) =
        CheckHealth (fun _ => HttpOutcome.response code br' dec')) := by
  refine ⟨?_, ?_, ?_⟩
  · intro a code br dec h
    unfold CheckHealth
    rw [h]
    by_cases hc : code = 200 <;> simp [hc]
  · intro a cause h
    unfold CheckHealth
    rw [h]
  · intro code br dec br' dec'
    unfold CheckHealth
    rfl

theorem checkHealth_contract_witness :
    (CheckHealth (fun _ => .response 200 none (.error "junk")) =
      .ok () ↔ (200 : Nat) = 200) ∧
    CheckHealth (fun _ => .transportError "down") = .error "down" :=
  ⟨checkHealth_contract.1 _ 200 none (.error "junk") rfl,
   checkHealth_contract.2.1 _ "down" rfl⟩

/-- C8: in the interleaving model of concurrent `Collect` callers, any
reachable state has at most one thread inside its status-client fetch:
the collector mutex serializes the fetch-and-translate sequence. -/
theorem collect_mutual_exclusion (s : CollectState) (t u : Nat)
    (hr : ReachableState s) (ht : s.phase t = .fetching)
    (hu : s.phase u = .fetching) : t = u := by
  have h1 := lockInv_reachable hr t (Or.inl ht)
  have h2 := lockInv_reachable hr u (Or.inl hu)
  rw [h1] at h2
  exact Option.some.inj h2

theorem collect_mutual_exclusion_witness : (0 : Nat) = 0 :=
  collect_mutual_exclusion
    ⟨some 0, setPhase initState.phase 0 .fetching⟩ 0 0
    (ReachableState.step ReachableState.init
      (CollectStep.acquire initState 0 rfl rfl))
    rfl rfl

/-- C1 counterexample: the per-status-code loop labels its samples with
the raw map key on the shared `requestsTotal` descriptor, so the document
whose status-code map holds the literal key `"total"` produces a sample
for the combination `(requests_total, status="total")` even though the
request-total field itself is absent — the claimed "absent field ⇒ zero
samples for its combination" fails here. -/
theorem requests_total_label_collision :
    docCodeTotal.metrics.requests =
      some ⟨none, none, some [("total", 3)]⟩ ∧
    Option.bind docCodeTotal.metrics.requests RequestMetrics.total =
      none ∧
    countDesc ((exportStatus docCodeTotal).getD [])
      .requestsTotal ["total"] = 1 :=
  ⟨rfl, rfl, rfl⟩

/-- C1 (amended): in a successful translation every present optional
field drives exactly one sample for its descriptor-label combination and
every absent one drives zero — provided (as Go maps guarantee) the core
and status-code keys are duplicate-free, and the status-code keys avoid
the reserved `requests_total` labels `"total"`/`"disconnects"` with which
they share a descriptor. -/
theorem optional_field_sample_counts (s : KibanaStatus)
    (out : List Sample) (hs : exportStatus s = some out)
    (hcore : (s.status.core.map Prod.fst).Nodup)
    (hcodes : (((Option.bind s.metrics.requests
      RequestMetrics.statusCodes).getD []).map Prod.fst).Nodup)
    (htotal : "total" ∉ ((Option.bind s.metrics.requests
      RequestMetrics.statusCodes).getD []).map Prod.fst)
    (hdisc : "disconnects" ∉ ((Option.bind s.metrics.requests
      RequestMetrics.statusCodes).getD []).map Prod.fst) :
    (∀ name, countDesc out .statusCore [name] =
      if name ∈ s.status.core.map Prod.fst then 1 else 0) ∧
    (countDesc out .statusElastic [] =
      if (lookupCore s.status.core "elasticsearch").isSome
      then 1 else 0) ∧
    (countDesc out .statusSavedObjects [] =
      if (lookupCore s.status.core "savedObjects").isSome then 1 else 0) ∧
    (countDesc out .heapTotal [] =
      if (Option.bind s.metrics.process.memory MemoryMetrics.heap).isSome
      then 1 else 0) ∧
    (countDesc out .heapUsed [] =
      if (Option.bind s.metrics.process.memory MemoryMetrics.heap).isSome
      then 1 else 0) ∧
    (countDesc out .heapSizeLimit [] =
      if (Option.bind s.metrics.process.memory MemoryMetrics.heap).isSome
      then 1 else 0) ∧
    (countDesc out .residentSet [] =
      if (Option.bind s.metrics.process.memory
        MemoryMetrics.resident).isSome then 1 else 0) ∧
    (countDesc out .eventLoop [] =
      if (s.metrics.process.eventLoopDelay).isSome then 1 else 0) ∧
    (countDesc out .uptime [] =
      if (s.metrics.process.uptime).isSome then 1 else 0) ∧
    (countDesc out .requestsTotal ["total"] =
      if (Option.bind s.metrics.requests RequestMetrics.total).isSome
      then 1 else 0) ∧
    (countDesc out .requestsTotal ["disconnects"] =
      if (Option.bind s.metrics.requests
        RequestMetrics.disconnects).isSome then 1 else 0) ∧
    (∀ code, "total" ≠ code → "disconnects" ≠ code →
      countDesc out .requestsTotal [code] =
        if code ∈ ((Option.bind s.metrics.requests
          RequestMetrics.statusCodes).getD []).map Prod.fst
        then 1 else 0) ∧
    (countDesc out .concurrentConn [] =
      if (s.metrics.concurrentConnections).isSome then 1 else 0) ∧
    (countDesc out .responseTime ["avg"] =
      if (Option.bind s.metrics.responseTimes
        ResponseTimeMetrics.avg).isSome then 1 else 0) ∧
    (countDesc out .responseTime ["max"] =
      if (Option.bind s.metrics.responseTimes
        ResponseTimeMetrics.max).isSome then 1 else 0) ∧
    (countDesc out .osCPUPercent [] =
      if (Option.bind (Option.bind (Option.bind s.metrics.os
        OSMetrics.cpu) CPUMetrics.controlGroup)
        ControlGroupCPU.cpuPercent).isSome then 1 else 0) ∧
    (countDesc out .osLoadAvg1m [] =
      if (Option.bind (Option.bind s.metrics.os OSMetrics.load)
        LoadMetrics.load1m).isSome then 1 else 0) ∧
    (countDesc out .osLoadAvg5m [] =
      if (Option.bind (Option.bind s.metrics.os OSMetrics.load)
        LoadMetrics.load5m).isSome then 1 else 0) ∧
    (countDesc out .osLoadAvg15m [] =
      if (Option.bind (Option.bind s.metrics.os OSMetrics.load)
        LoadMetrics.load15m).isSome then 1 else 0) ∧
    (countDesc out .osMemTotal [] =
      if (Option.bind (Option.bind s.metrics.os OSMetrics.memory)
        OSMemoryMetrics.totalBytes).isSome then 1 else 0) ∧
    (countDesc out .osMemFree [] =
      if (Option.bind (Option.bind s.metrics.os OSMetrics.memory)
        OSMemoryMetrics.freeBytes).isSome then 1 else 0) ∧
    (countDesc out .osMemUsed [] =
      if (Option.bind (Option.bind s.metrics.os OSMetrics.memory)
        OSMemoryMetrics.usedBytes).isSome then 1 else 0) := by
  rcases exportStatus_eq hs with ⟨l, hl, rfl⟩
  have hck : ∀ k, (((Option.bind s.metrics.requests
      RequestMetrics.statusCodes).getD []).countP
        fun p => decide (p.1 = k)) =
      if k ∈ ((Option.bind s.metrics.requests
        RequestMetrics.statusCodes).getD []).map Prod.fst
      then 1 else 0 :=
    fun k => countP_keys _ k hcodes
  refine ⟨fun name => ?_, ?_, ?_, ?_, ?_, ?_, ?_, ?_, ?_, ?_, ?_,
    fun code hne1 hne2 => ?_, ?_, ?_, ?_, ?_, ?_, ?_, ?_, ?_, ?_, ?_⟩ <;>
    first
    | simp [countDesc_append, countDesc_cons, countDesc_nil,
        countDesc_single, countDesc_optSample, countDesc_subsystemSample,
        countDesc_processMemorySamples, countDesc_requestSamples_ne,
        countDesc_requestSamples_labeled,
        countDesc_responseTimeSamples_ne,
        countDesc_responseTimeSamples_labeled, countDesc_osSamples,
        countDesc_coreSamples_ne hl, countDesc_coreSamples_name hl hcore,
        hck, hne1, hne2]
    | simp [countDesc_append, countDesc_cons, countDesc_nil,
        countDesc_single, countDesc_optSample, countDesc_subsystemSample,
        countDesc_processMemorySamples, countDesc_requestSamples_ne,
        countDesc_requestSamples_labeled,
        countDesc_responseTimeSamples_ne,
        countDesc_responseTimeSamples_labeled, countDesc_osSamples,
        countDesc_coreSamples_ne hl, countDesc_coreSamples_name hl hcore,
        hck, htotal, hdisc]

theorem optional_field_sample_counts_witness :
    (countDesc docFullOut .statusElastic [] =
      if (lookupCore docFull.status.core "elasticsearch").isSome
      then 1 else 0) ∧
    (countDesc docFullOut .eventLoop [] =
      if (docFull.metrics.process.eventLoopDelay).isSome then 1 else 0) ∧
    (countDesc docFullOut .requestsTotal ["200"] =
      if "200" ∈ ((Option.bind docFull.metrics.requests
        RequestMetrics.statusCodes).getD []).map Prod.fst
      then 1 else 0) :=
  ⟨(optional_field_sample_counts docFull docFullOut rfl (by decide)
      (by decide) (by decide) (by decide)).2.1,
   (optional_field_sample_counts docFull docFullOut rfl (by decide)
      (by decide) (by decide) (by decide)).2.2.2.2.2.2.2.1,
   (optional_field_sample_counts docFull docFullOut rfl (by decide)
      (by decide) (by decide) (by decide)).2.2.2.2.2.2.2.2.2.2.2.1 "200"
      (by decide) (by decide)⟩

end KibanaExporter
